import Mathlib

/-
Verification of the minesweeper terminal client (src/main.py,
src/minesweeper/main.py, src/minesweeper/api.py).

The client code is shallowly embedded: each Python function that the
properties mention is translated into an executable Lean definition.
Python exceptions become explicit constructors (`DispatchResult.reject`
for a `ValueError` caught by the interaction loop, `DispatchResult.crash`
for an uncaught `IndexError`), network calls become `TransportCall`
values, and the server is an oracle `TransportCall -> session`.
-/

set_option autoImplicit false

/-! ## Python string and integer primitives

These model the exact behaviour of the Python builtins the client uses on
its inputs: `str.split(":")`, `str.isdigit` (restricted to ASCII decimal
digits, the only ones the repository's seeds use), `str.strip`-style
trimming inside `int(...)`, and CPython's integer-literal syntax
(optional sign, decimal digits, single underscores between digits).
All definitions are structural so that concrete seeds evaluate inside
`decide`/`rfl`. -/

/-- ASCII whitespace stripped by Python's `int(str)` conversion. -/
def isPySpace (c : Char) : Bool :=
  c = ' ' || c = '\t' || c = '\n' || c = '\x0d' || c = '\x0b' || c = '\x0c'

/-- Strip leading and trailing whitespace, as `int(str)` does. -/
def trimChars (cs : List Char) : List Char :=
  ((cs.dropWhile isPySpace).reverse.dropWhile isPySpace).reverse

/-- After an initial digit: digits, with single underscores that must sit
between two digits (CPython integer-literal rule). -/
def digitsUndAux : List Char → Bool
  | [] => true
  | '_' :: c :: rest => c.isDigit && digitsUndAux rest
  | '_' :: [] => false
  | c :: rest => c.isDigit && digitsUndAux rest

/-- A non-empty digit run acceptable to `int(...)` after the sign. -/
def pyDigits : List Char → Bool
  | [] => false
  | c :: rest => c.isDigit && digitsUndAux rest

/-- Numeric value of a digit run (underscores are separators). -/
def digitsVal (cs : List Char) : Nat :=
  (cs.filter (fun c => c ≠ '_')).foldl (fun acc c => 10 * acc + (c.toNat - 48)) 0

/-- `int(s)` for a decimal string: `some n` on success, `none` when CPython
raises `ValueError: invalid literal for int()`. -/
def pyInt (s : String) : Option Int :=
  match trimChars s.toList with
  | '+' :: rest => if pyDigits rest then some (Int.ofNat (digitsVal rest)) else none
  | '-' :: rest => if pyDigits rest then some (-(Int.ofNat (digitsVal rest))) else none
  | cs => if pyDigits cs then some (Int.ofNat (digitsVal cs)) else none

/-- `s.isdigit()`: non-empty and all decimal digits. -/
def pyIsDigitStr (s : String) : Bool :=
  !(s.toList.isEmpty) && s.toList.all Char.isDigit

/-- `map(int, parts)` forced by tuple unpacking: fails as soon as one part
fails to parse (the `ValueError` escapes the caller). -/
def pyMapInt : List String → Option (List Int)
  | [] => some []
  | s :: rest =>
    match pyInt s with
    | none => none
    | some n =>
      match pyMapInt rest with
      | none => none
      | some ns => some (n :: ns)

/-- `s.split(":")` on the character list: splits at every colon, keeping
empty segments, never dropping a trailing segment. -/
def splitColon : List Char → List (List Char)
  | [] => [[]]
  | ':' :: rest => [] :: splitColon rest
  | c :: rest =>
    match splitColon rest with
    | [] => [[c]]
    | g :: gs => (c :: g) :: gs

/-- `seed.split(":")`. -/
def pySplitColon (s : String) : List String :=
  (splitColon s.toList).map (fun cs => String.mk cs)

/-! ## Data model

`GameSession` embeds the `GameSession` TypedDict of src/minesweeper/api.py;
`ended_at = none` models the key being absent from the server's JSON.
`MState` embeds the mutable `Minesweeper` client object of src/main.py
(grid `[]`, i.e. falsy, means no session has been created yet). -/

structure GameParams where
  width : Int
  height : Int
  mine_count : Int
  unique : Bool
  deriving DecidableEq

structure GameSession where
  session_id : String
  grid : List Int
  width : Int
  height : Int
  mine_count : Int
  unique : Bool
  dead : Bool
  won : Bool
  started_at : Int
  ended_at : Option Int
  deriving DecidableEq

structure MState where
  width : Int
  height : Int
  mine_count : Int
  unique : Bool
  session_id : Option String
  grid : List Int
  dead : Bool
  won : Bool
  started_at : Option Int
  ended_at : Option Int
  deriving DecidableEq

/-- One server response body, as consumed by `Minesweeper.update` in
src/main.py (`ended_at = none` models the key being absent). -/
structure UpdateData where
  session_id : String
  grid : List Int
  dead : Bool
  won : Bool
  started_at : Int
  ended_at : Option Int
  deriving DecidableEq

/-- The transport operation a dispatcher ends up invoking: the
`open`/`chord`/`flag` endpoints of `GameWSAPI`/`requests.post`, or the
session-creating `POST /game` issued by `new_game`. -/
inductive TransportCall where
  | tcOpen (x y : Int)
  | tcChord (x y : Int)
  | tcFlag (x y : Int)
  | tcNewGame (x y : Int)
  deriving DecidableEq

/-- Outcome of dispatching one command against the locally cached state:
`call` - a transport operation is invoked; `reject` - a `ValueError` with
the given message is raised (caught by the loop, no network traffic);
`crash` - an uncaught `IndexError` from a grid access. -/
inductive DispatchResult where
  | call (c : TransportCall)
  | reject (msg : String)
  | crash
  deriving DecidableEq

/-! ## Dispatchers of src/main.py (class `Minesweeper`)

The bounds check precedes every grid access, so the flat index
`y * width + x` is non-negative wherever `toNat` is applied. -/

/-- `Minesweeper.validate_move` (src/main.py lines 111-112). -/
def MState.validate_move (st : MState) (x y : Int) : Bool :=
  decide (0 ≤ x ∧ x < st.width ∧ 0 ≤ y ∧ y < st.height)

/-- `Minesweeper.chord` (src/main.py lines 133-150), after the integer
parse of `args`. -/
def MState.chordCmd (st : MState) (x y : Int) : DispatchResult :=
  if ¬ st.validate_move x y then .reject "out of bounds"
  else if st.grid = [] then .call (.tcNewGame x y)
  else
    match st.grid.get? (y * st.width + x).toNat with
    | none => .crash
    | some c =>
      if ¬ (0 ≤ c ∧ c ≤ 8) then .reject "cannot chord closed square"
      else .call (.tcChord x y)

/-- `Minesweeper.open` (src/main.py lines 114-131), after the integer
parse of `args`: a non-`-2` cell is redirected to `Minesweeper.chord`. -/
def MState.openCmd (st : MState) (x y : Int) : DispatchResult :=
  if ¬ st.validate_move x y then .reject "out of bounds"
  else if st.grid = [] then .call (.tcNewGame x y)
  else
    match st.grid.get? (y * st.width + x).toNat with
    | none => .crash
    | some c => if c ≠ -2 then st.chordCmd x y else .call (.tcOpen x y)

/-- `Minesweeper.flag` (src/main.py lines 152-165), after the integer
parse of `args`. -/
def MState.flagCmd (st : MState) (x y : Int) : DispatchResult :=
  if ¬ st.validate_move x y then .reject "out of bounds"
  else if st.grid = [] then .reject "open any square to start the game"
  else .call (.tcFlag x y)

/-- `Minesweeper.update` (src/main.py lines 53-64): copies the response
fields wholesale; `ended_at` is only overwritten when the key is present. -/
def MState.update (st : MState) (d : UpdateData) : MState :=
  { st with
    session_id := some d.session_id
    grid := d.grid
    dead := d.dead
    won := d.won
    started_at := some d.started_at
    ended_at := match d.ended_at with
      | some e => some e
      | none => st.ended_at }

/-- `Minesweeper.mines_remaining` (src/main.py lines 221-224). -/
def MState.mines_remaining (st : MState) : Int :=
  if st.grid = [] then st.mine_count
  else st.mine_count - Int.ofNat (st.grid.countP (fun x => x == -1))

/-- `while not (game.won or game.dead)` - the loop-continuation condition
of `game_loop` (src/main.py line 267). -/
def loopOngoingV0 (st : MState) : Bool :=
  !(st.won || st.dead)

/-- `Minesweeper.from_seed` (src/main.py lines 66-74).  The second guard is
transcribed exactly as written: `all(s for s in parts if s.isdigit())`
filters the parts to the digit-strings first and only then checks
truthiness, and the `ValueError` of `map(int, parts)` escapes uncaught
into the caller. -/
def from_seed (seed : String) : Except String GameParams :=
  let parts := pySplitColon seed
  if ¬ (parts.length = 3 ∨ parts.length = 4) then
    .error "seed may contain 3 or 4 parts"
  else if ¬ ((parts.filter (fun s => pyIsDigitStr s)).all (fun s => !s.toList.isEmpty) = true) then
    .error "seed parts must be digits"
  else
    match pyMapInt parts with
    | none => .error "invalid literal for int() with base 10"
    | some [w, h, m] => .ok ⟨w, h, m, true⟩
    | some [w, h, m, u] => .ok ⟨w, h, m, u != 0⟩
    | some _ => .error "unreachable: guarded by the length check"

/-- `main` (src/main.py lines 293-298): any exception out of
`restore_game` is printed and the process returns exit code 1;
`none` means setup succeeded and the interaction loop starts. -/
def mainExitOnSetup (seed : String) : Option Nat :=
  match from_seed seed with
  | .error _ => some 1
  | .ok _ => none

/-! ## Dispatchers of src/minesweeper/main.py

Both the `Minesweeper` class methods (operating on the cached
`GameSession`) and the module-level command functions wired into
`DISPATCH` are embedded; `_main` dispatches through the latter. -/

/-- `Minesweeper.validate_move` (src/minesweeper/main.py lines 35-36). -/
def GameSession.validate_move (s : GameSession) (x y : Int) : Bool :=
  decide (0 ≤ x ∧ x < s.width ∧ 0 ≤ y ∧ y < s.height)

/-- Class method `Minesweeper.chord` (src/minesweeper/main.py lines
51-61), after the integer parse of `args`. -/
def GameSession.chordCmd (s : GameSession) (x y : Int) : DispatchResult :=
  if ¬ s.validate_move x y then .reject "out of bounds"
  else
    match s.grid.get? (y * s.width + x).toNat with
    | none => .crash
    | some c =>
      if ¬ (0 ≤ c ∧ c ≤ 8) then .reject "cannot chord closed square"
      else .call (.tcChord x y)

/-- Class method `Minesweeper.open` (src/minesweeper/main.py lines
38-49): a non-`-2` cell is redirected to the class `chord`. -/
def GameSession.openCmd (s : GameSession) (x y : Int) : DispatchResult :=
  if ¬ s.validate_move x y then .reject "out of bounds"
  else
    match s.grid.get? (y * s.width + x).toNat with
    | none => .crash
    | some c => if c ≠ -2 then s.chordCmd x y else .call (.tcOpen x y)

/-- Class method `Minesweeper.flag` (src/minesweeper/main.py lines 63-70). -/
def GameSession.flagCmd (s : GameSession) (x y : Int) : DispatchResult :=
  if ¬ s.validate_move x y then .reject "out of bounds"
  else .call (.tcFlag x y)

/-- Module-level `open` (src/minesweeper/main.py lines 201-211), the
handler behind `DISPATCH["o"]`: a `-2` cell goes to `wsapi.open`, every
other code goes straight to `wsapi.chord` with no local range check. -/
def mwOpen (s : GameSession) (x y : Int) : DispatchResult :=
  if ¬ (0 ≤ x ∧ x < s.width) ∨ ¬ (0 ≤ y ∧ y < s.height) then .reject "out of bounds"
  else
    match s.grid.get? (y * s.width + x).toNat with
    | none => .crash
    | some c => if c == -2 then .call (.tcOpen x y) else .call (.tcChord x y)

/-- Module-level `flag` (src/minesweeper/main.py lines 214-221), the
handler behind `DISPATCH["f"]`. -/
def mwFlag (s : GameSession) (x y : Int) : DispatchResult :=
  if ¬ (0 ≤ x ∧ x < s.width) ∨ ¬ (0 ≤ y ∧ y < s.height) then .reject "out of bounds"
  else .call (.tcFlag x y)

/-- `Minesweeper.mines_remaining` (src/minesweeper/main.py lines
127-130), also the inline computation of `_main` (lines 315-316). -/
def GameSession.mines_remaining (s : GameSession) : Int :=
  s.mine_count - Int.ofNat (s.grid.countP (fun x => x == -1))

/-- The spec's derived remaining-mine formula:
`mine_count - |{c in grid : c == FLAG}|` with `FLAG = -1`. -/
def specMinesRemaining (mine_count : Int) (grid : List Int) : Int :=
  mine_count - Int.ofNat (grid.countP (fun c => c == -1))

/-- `while "ended_at" not in session` - the loop-continuation condition of
`_main` (src/minesweeper/main.py line 314). -/
def loopOngoing (s : GameSession) : Bool :=
  s.ended_at.isNone

/-- What `_main` prints after its loop exits (src/minesweeper/main.py
lines 335-341): the `dead`/`won` cascade, `.silent` when neither flag is
set (no message at all; `_main` then returns exit code 0), `.crash` for
the `KeyError` of reading a missing `ended_at` in the win branch. -/
inductive FinalOutcome where
  | msg (m : String)
  | silent
  | crash
  deriving DecidableEq

/-- The final-report cascade of `_main` (src/minesweeper/main.py lines
335-341). -/
def finalReport (s : GameSession) : FinalOutcome :=
  if s.dead then .msg "You lost!"
  else if s.won then
    match s.ended_at with
    | some e => .msg ("You won! Your time: " ++ toString (e - s.started_at))
    | none => .crash
  else .silent

/-- One turn of `_main`'s interaction loop after the dispatcher ran
(src/minesweeper/main.py lines 327-333): a transport call yields the
server's replacement session, a `ValueError` is printed and the session
is kept unchanged, an uncaught exception aborts the loop. -/
def applyResult (transport : TransportCall → GameSession) (s : GameSession) :
    DispatchResult → Option GameSession
  | .call c => some (transport c)
  | .reject _ => some s
  | .crash => none

/-- One turn of `game_loop` after the dispatcher ran (src/main.py lines
278-283), same shape for the `Minesweeper` object of src/main.py. -/
def applyResultM (transport : TransportCall → MState) (st : MState) :
    DispatchResult → Option MState
  | .call c => some (transport c)
  | .reject _ => some st
  | .crash => none

/-! ## Grid renderer

The colorama constants are the ANSI escape strings they expand to at
module load time; the two `CELL_TO_CH` defaultdicts are association lists
paired with the `"%"` default factory. -/

/-- `Style.DIM`. -/
def styDIM : String := "\x1b[2m"

/-- `Style.RESET_ALL`. -/
def styRESET : String := "\x1b[0m"

/-- `CELL_TO_CH` of src/minesweeper/main.py (lines 141-162, identical to
the class attribute at lines 85-106): the key/value pairs of the
defaultdict literal, codes 64-67 included. -/
def CELL_TABLE : List (Int × String) :=
  [(-3, "?"),
   (-2, "#"),
   (-1, "F"),
   (0, "."),
   (1, "\x1b[36m1\x1b[0m"),
   (2, "\x1b[32m2\x1b[0m"),
   (3, "\x1b[31m3\x1b[0m"),
   (4, "\x1b[2m\x1b[34m4\x1b[0m"),
   (5, "\x1b[2m\x1b[31m5\x1b[0m"),
   (6, "\x1b[2m\x1b[32m6\x1b[0m"),
   (7, "\x1b[2m\x1b[90m7\x1b[0m"),
   (8, "\x1b[2m\x1b[34m8\x1b[0m"),
   (32, "!"),
   (64, "*"),
   (65, "\x1b[37m\x1b[41m*\x1b[0m"),
   (66, "X"),
   (67, "x")]

/-- `Minesweeper.CELL_TO_CH` of src/main.py (lines 180-200): same table
except that code 67 is absent. -/
def CELL_TABLE_V0 : List (Int × String) :=
  [(-3, "?"),
   (-2, "#"),
   (-1, "F"),
   (0, "."),
   (1, "\x1b[36m1\x1b[0m"),
   (2, "\x1b[32m2\x1b[0m"),
   (3, "\x1b[31m3\x1b[0m"),
   (4, "\x1b[2m\x1b[34m4\x1b[0m"),
   (5, "\x1b[2m\x1b[31m5\x1b[0m"),
   (6, "\x1b[2m\x1b[32m6\x1b[0m"),
   (7, "\x1b[2m\x1b[90m7\x1b[0m"),
   (8, "\x1b[2m\x1b[34m8\x1b[0m"),
   (32, "!"),
   (64, "*"),
   (65, "\x1b[37m\x1b[41m*\x1b[0m"),
   (66, "X")]

/-- `CELL_TO_CH[ch]` lookup (src/minesweeper/main.py): the defaultdict
returns the stored glyph for a known code and the factory's `"%"` for any
other integer, never raising. -/
def cellToCh (c : Int) : String :=
  (CELL_TABLE.lookup c).getD "%"

/-- `Minesweeper.CELL_TO_CH[ch]` lookup (src/main.py). -/
def cellToChV0 (c : Int) : String :=
  (CELL_TABLE_V0.lookup c).getD "%"

/-- Exact `ceil(log10 w)` for a positive integer `w`: the least `k` with
`w ≤ 10 ^ k`.  This is the value `math.ceil(math.log10(width))` computes
(the widths in play are far below any float-rounding regime). -/
def ceilLog10 (w : Nat) : Nat :=
  if w ≤ 1 then 0 else Nat.log 10 (w - 1) + 1

/-- `colwidth = math.ceil(math.log10(width))` as computed by
`render_grid` (src/minesweeper/main.py line 166) and
`Minesweeper.render` (src/main.py line 204). -/
def renderColwidth (w : Nat) : Nat :=
  ceilLog10 w

/-- `" " * n`. -/
def spaces (n : Nat) : String :=
  String.mk (List.replicate n ' ')

/-- Python format `f"{s: >{w}}"`: right-align by left-padding with
spaces (no-op when the string is already wide enough). -/
def padLeft (w : Nat) (s : String) : String :=
  spaces (w - s.length) ++ s

/-- `f"{i: >{colwidth}}"` for a row or column index. -/
def padNum (w i : Nat) : String :=
  padLeft w (toString i)

/-- `itertools.batched(l, n)` with explicit fuel so the definition is
structural (kernel-reducible); `batched` below instantiates the fuel at
`l.length`, which is enough whenever `n > 0`. -/
def chunkFuel {α : Type} : Nat → List α → Nat → List (List α)
  | _, [], _ => []
  | 0, _ :: _, _ => []
  | fuel + 1, l@(_ :: _), n => l.take n :: chunkFuel fuel (l.drop n) n

/-- `itertools.batched(l, n)`: successive chunks of `n` cells, the last
chunk possibly shorter.  (Python raises for `n < 1`; the renderer only
reaches it with `width ≥ 1`.) -/
def batched {α : Type} (l : List α) (n : Nat) : List (List α) :=
  chunkFuel l.length l n

/-- `" ".join(" " * (colwidth - 1) + f"{CELL_TO_CH[ch]}" for ch in line)`
(src/minesweeper/main.py line 168; note `" " * -1 = ""` in Python, which
Nat subtraction reproduces at `colwidth = 0`). -/
def renderRow (cw : Nat) (line : List Int) : String :=
  String.intercalate " " (line.map (fun ch => spaces (cw - 1) ++ cellToCh ch))

/-- The enumerated, index-prefixed data rows of `render_grid`
(src/minesweeper/main.py lines 167-174). -/
def dataRows (grid : List Int) (w : Nat) : List String :=
  (batched grid w).enum.map
    (fun p => styDIM ++ padNum (renderColwidth w) p.1 ++ styRESET ++ " "
      ++ renderRow (renderColwidth w) p.2)

/-- The column indices the top ruler enumerates: `range(width)`
(src/minesweeper/main.py line 178). -/
def rulerIndices (w : Nat) : List Nat :=
  List.range w

/-- The top ruler line of `render_grid` (src/minesweeper/main.py lines
175-180). -/
def topRuler (w : Nat) : String :=
  spaces (renderColwidth w + 1) ++ styDIM
    ++ String.intercalate " " ((rulerIndices w).map (padNum (renderColwidth w)))
    ++ styRESET

/-- `render_grid(grid, width)` (src/minesweeper/main.py lines 165-181):
the ruler followed by the data rows, newline-joined.  `Minesweeper.render`
in both files is this same computation over the cached session grid. -/
def renderGrid (grid : List Int) (w : Nat) : String :=
  String.intercalate "\n" (topRuler w :: dataRows grid w)

/-! ## Helper lemmas -/

/-- A key absent from an association list looks up to `none`. -/
theorem lookup_eq_none_of_not_key {l : List (Int × String)} {a : Int}
    (h : a ∉ l.map Prod.fst) : l.lookup a = none := by
  induction l with
  | nil => rfl
  | cons p rest ih =>
    obtain ⟨k, v⟩ := p
    simp only [List.map_cons, List.mem_cons, not_or] at h
    have hk : (a == k) = false := by
      simpa [beq_iff_eq] using h.1
    simp [List.lookup, hk, ih h.2]

/-- Nodup keys make an association list functional. -/
theorem assoc_functional {l : List (Int × String)} (hnd : (l.map Prod.fst).Nodup)
    {a : Int} {g1 g2 : String} (h1 : (a, g1) ∈ l) (h2 : (a, g2) ∈ l) : g1 = g2 := by
  induction l with
  | nil => cases h1
  | cons p rest ih =>
    obtain ⟨k, v⟩ := p
    simp only [List.map_cons, List.nodup_cons] at hnd
    rcases List.mem_cons.mp h1 with h1h | h1t
    · rcases List.mem_cons.mp h2 with h2h | h2t
      · rw [Prod.mk.injEq] at h1h h2h
        rw [h1h.2, h2h.2]
      · exfalso
        rw [Prod.mk.injEq] at h1h
        exact hnd.1 (List.mem_map.mpr ⟨(a, g2), h2t, by rw [h1h.1]⟩)
    · rcases List.mem_cons.mp h2 with h2h | h2t
      · exfalso
        rw [Prod.mk.injEq] at h2h
        exact hnd.1 (List.mem_map.mpr ⟨(a, g1), h1t, by rw [h2h.1]⟩)
      · exact ih hnd.2 h1t h2t

/-- `chunkFuel` on sufficient fuel produces exactly `ceil(len / n)` chunks. -/
theorem chunkFuel_length_ceil {α : Type} {w : Nat} (hw : 0 < w) :
    ∀ (fuel : Nat) (l : List α), l.length ≤ fuel →
      (chunkFuel fuel l w).length = (l.length + w - 1) / w := by
  intro fuel
  induction fuel with
  | zero =>
    intro l hl
    have hnil : l = [] := List.eq_nil_of_length_eq_zero (by omega)
    subst hnil
    simp only [chunkFuel, List.length_nil, Nat.zero_add]
    rw [Nat.div_eq_of_lt (show w - 1 < w by omega)]
  | succ f ih =>
    intro l hl
    cases l with
    | nil =>
      simp only [chunkFuel, List.length_nil, Nat.zero_add]
      rw [Nat.div_eq_of_lt (show w - 1 < w by omega)]
    | cons a as =>
      simp only [List.length_cons] at hl
      show (List.take w (a :: as) :: chunkFuel f ((a :: as).drop w) w).length = _
      rw [List.length_cons,
        ih _ (by simp only [List.length_drop, List.length_cons]; omega)]
      rw [List.length_drop, List.length_cons]
      rcases le_or_lt w (as.length + 1) with hle | hlt
      · have h1 : as.length + 1 - w + w - 1 = as.length := by omega
        have h2 : as.length + 1 + w - 1 = (as.length + 1 - 1) + w := by omega
        rw [h1, h2, Nat.add_div_right _ hw]
        have h3 : as.length = as.length + 1 - 1 := by omega
        rw [← h3]
      · have h1 : as.length + 1 - w = 0 := by omega
        have h2 : as.length + 1 + w - 1 = as.length + w := by omega
        rw [h1, h2, Nat.add_div_right _ hw]
        rw [Nat.div_eq_of_lt (by omega : 0 + w - 1 < w),
          Nat.div_eq_of_lt (by omega : as.length < w)]

/-- `batched` produces `ceil(len / n)` chunks for any grid length. -/
theorem batched_length_ceil {α : Type} {l : List α} {w : Nat} (hw : 0 < w) :
    (batched l w).length = (l.length + w - 1) / w :=
  chunkFuel_length_ceil hw l.length l (Nat.le_refl _)

/-- On a grid of length exactly `w * h`, `batched` produces `h` rows. -/
theorem batched_length_exact {l : List Int} {w h : Nat} (hw : 0 < w)
    (hl : l.length = w * h) : (batched l w).length = h := by
  rw [batched_length_ceil hw, hl]
  have h1 : w * h + w - 1 = (w - 1) + w * h := by omega
  rw [h1, Nat.add_mul_div_left _ _ hw, Nat.div_eq_of_lt (by omega : w - 1 < w)]
  omega

/-- `pyMapInt` fails exactly when some part fails to parse. -/
theorem pyMapInt_eq_none {ps : List String} :
    pyMapInt ps = none ↔ ∃ p ∈ ps, pyInt p = none := by
  induction ps with
  | nil => simp [pyMapInt]
  | cons s rest ih =>
    cases hs : pyInt s with
    | none =>
      simp only [pyMapInt, hs]
      constructor
      · intro _
        exact ⟨s, List.mem_cons_self s rest, hs⟩
      · intro _
        trivial
    | some n =>
      cases hr : pyMapInt rest with
      | none =>
        simp only [pyMapInt, hs, hr]
        constructor
        · intro _
          obtain ⟨p, hp, hpn⟩ := ih.mp hr
          exact ⟨p, List.mem_cons_of_mem _ hp, hpn⟩
        · intro _
          trivial
      | some ns =>
        simp only [pyMapInt, hs, hr]
        constructor
        · intro h
          cases h
        · rintro ⟨p, hp, hpn⟩
          rcases List.mem_cons.mp hp with rfl | hp2
          · rw [hs] at hpn
            cases hpn
          · have h2 := ih.mpr ⟨p, hp2, hpn⟩
            rw [hr] at h2
            cases h2

/-- The digit guard of `from_seed` is vacuous as written: filtering the
parts down to the digit strings first leaves only non-empty (truthy)
strings, so the `all` always succeeds. -/
theorem seed_digit_guard_true (ps : List String) :
    (ps.filter (fun s => pyIsDigitStr s)).all (fun s => !s.toList.isEmpty) = true := by
  rw [List.all_eq_true]
  intro s hs
  have h := List.of_mem_filter hs
  simp only [pyIsDigitStr, Bool.and_eq_true] at h
  exact h.1

/-- `ceilLog10` really is `ceil(log10 w)`: upper bound. -/
theorem ceilLog10_le_pow {w : Nat} (hw : 1 ≤ w) : w ≤ 10 ^ ceilLog10 w := by
  unfold ceilLog10
  by_cases h : w ≤ 1
  · simp only [h, if_pos]
    omega
  · rw [if_neg h]
    have hstep := Nat.lt_pow_succ_log_self (b := 10) (by norm_num) (w - 1)
    omega

/-- `ceilLog10` really is `ceil(log10 w)`: least such exponent. -/
theorem ceilLog10_least {w k : Nat} (hk : w ≤ 10 ^ k) : ceilLog10 w ≤ k := by
  unfold ceilLog10
  by_cases h : w ≤ 1
  · simp [h]
  · rw [if_neg h]
    have hw1 : w - 1 ≠ 0 := by omega
    have hlt : w - 1 < 10 ^ k := by omega
    have := Nat.log_lt_of_lt_pow hw1 hlt
    omega

/-! ## Claims -/

/-- Concrete terminal snapshot with both status flags false. -/
def sessBothFalse : GameSession :=
  { session_id := "s", grid := [0], width := 1, height := 1, mine_count := 0,
    unique := true, dead := false, won := false, started_at := 5, ended_at := some 9 }

/-- Concrete src/main.py client state with both status flags false. -/
def stBothFalse : MState :=
  { width := 1, height := 1, mine_count := 0, unique := true, session_id := some "s",
    grid := [0], dead := false, won := false, started_at := some 5, ended_at := some 9 }

/-- C1 counterexample: on a snapshot with `ended_at` present and
`won = dead = false`, the `_main` loop of src/minesweeper/main.py does
exit, but nothing is printed (the dead/won cascade falls through) and the
run completes as a normal exit-code-0 success - no fatal protocol error
is surfaced anywhere; the `game_loop` of src/main.py even keeps treating
such a session as ongoing, since its condition tests only the flags. -/
theorem c1_counterexample :
    sessBothFalse.ended_at = some 9 ∧ sessBothFalse.won = false ∧
    sessBothFalse.dead = false ∧ loopOngoing sessBothFalse = false ∧
    finalReport sessBothFalse = .silent ∧ loopOngoingV0 stBothFalse = true := by
  decide

/-- C1 (amended): for every snapshot with `ended_at` present and
`won = dead = false`, the src/minesweeper/main.py loop exits (the session
is not treated as ongoing there) but the client surfaces no error: the
final report is silent and `_main` returns 0, a normal completion; in
src/main.py, whose loop condition tests only `won`/`dead`, such a
session is treated as ongoing. -/
theorem c1_ended_without_flags_is_silent (s : GameSession) (st : MState)
    (he : s.ended_at.isSome = true) (hw : s.won = false) (hd : s.dead = false)
    (hw2 : st.won = false) (hd2 : st.dead = false) :
    loopOngoing s = false ∧ finalReport s = .silent ∧ loopOngoingV0 st = true := by
  refine ⟨?_, ?_, ?_⟩
  · unfold loopOngoing
    cases hsome : s.ended_at with
    | none => simp [hsome] at he
    | some e => rfl
  · simp [finalReport, hw, hd]
  · simp [loopOngoingV0, hw2, hd2]

/-- C1 witness: the amended statement at the concrete snapshot. -/
theorem c1_witness :
    loopOngoing sessBothFalse = false ∧ finalReport sessBothFalse = FinalOutcome.silent ∧
    loopOngoingV0 stBothFalse = true :=
  c1_ended_without_flags_is_silent sessBothFalse stBothFalse (by decide) (by decide)
    (by decide) (by decide) (by decide)

/-- Concrete active session with a revealed numbered cell. -/
def sessNumber : GameSession :=
  { session_id := "s", grid := [3], width := 1, height := 1, mine_count := 0,
    unique := true, dead := false, won := false, started_at := 0, ended_at := none }

/-- Concrete src/main.py client state with a revealed numbered cell. -/
def stNumber : MState :=
  { width := 1, height := 1, mine_count := 0, unique := true, session_id := some "s",
    grid := [3], dead := false, won := false, started_at := some 0, ended_at := none }

/-- C2: dispatching `open x y` on an in-bounds cell whose code lies in
0-8 invokes the chord transport operation and never the open operation:
in the module-level `open` of src/minesweeper/main.py, in the class
method `Minesweeper.open` there, and in `Minesweeper.open` of
src/main.py (which redirects through `Minesweeper.chord`). -/
theorem c2_open_on_number_chords (s : GameSession) (st : MState) (x y c d : Int)
    (hxs : 0 ≤ x ∧ x < s.width) (hys : 0 ≤ y ∧ y < s.height)
    (hcs : s.grid[(y * s.width + x).toNat]? = some c)
    (hc : 0 ≤ c ∧ c ≤ 8)
    (hvt : st.validate_move x y = true) (hg : st.grid ≠ [])
    (hct : st.grid[(y * st.width + x).toNat]? = some d)
    (hd : 0 ≤ d ∧ d ≤ 8) :
    mwOpen s x y = .call (.tcChord x y) ∧
    GameSession.openCmd s x y = .call (.tcChord x y) ∧
    MState.openCmd st x y = .call (.tcChord x y) := by
  have hvs : s.validate_move x y = true := by
    unfold GameSession.validate_move
    exact decide_eq_true ⟨hxs.1, hxs.2, hys.1, hys.2⟩
  have hcne : ¬ (c = -2) := by omega
  have hdne : ¬ (d = -2) := by omega
  have hc8 : ¬ (8 < c) := not_lt.mpr hc.2
  have hd8 : ¬ (8 < d) := not_lt.mpr hd.2
  refine ⟨?_, ?_, ?_⟩
  · have hbeqc : (c == -2) = false := beq_eq_false_iff_ne.mpr hcne
    simp only [mwOpen, List.get?_eq_getElem?, hcs]
    rw [if_neg (show ¬ (¬ (0 ≤ x ∧ x < s.width) ∨ ¬ (0 ≤ y ∧ y < s.height)) from by
      push_neg
      exact ⟨hxs, hys⟩)]
    simp [hbeqc]
  · simp [GameSession.openCmd, GameSession.chordCmd, hvs, hcs, hcne, hc.1, hc8]
  · simp [MState.openCmd, MState.chordCmd, hvt, hg, hct, hdne, hd.1, hd8]

/-- C2 witness: opening the revealed `3` cell chords in all three
dispatchers. -/
theorem c2_witness :
    mwOpen sessNumber 0 0 = .call (.tcChord 0 0) ∧
    GameSession.openCmd sessNumber 0 0 = .call (.tcChord 0 0) ∧
    MState.openCmd stNumber 0 0 = .call (.tcChord 0 0) :=
  c2_open_on_number_chords sessNumber stNumber 0 0 3 3 (by decide) (by decide) (by decide)
    (by decide) (by decide) (by decide) (by decide) (by decide)

/-- Concrete 1x1 active session for the bounds claims. -/
def sessC3 : GameSession :=
  { session_id := "s", grid := [0], width := 1, height := 1, mine_count := 0,
    unique := true, dead := false, won := false, started_at := 0, ended_at := none }

/-- Concrete 1x1 src/main.py client state for the bounds claims. -/
def stC3 : MState :=
  { width := 1, height := 1, mine_count := 0, unique := true, session_id := some "s",
    grid := [0], dead := false, won := false, started_at := some 0, ended_at := none }

/-- C3: dispatching `open`/`flag` with out-of-bounds coordinates is
rejected locally in every dispatcher, before any transport operation
(zero `call` results), and a rejected command leaves the cached session
unchanged in the interaction loop. -/
theorem c3_out_of_bounds_rejected_locally (s : GameSession) (st : MState) (x y u v : Int)
    (hout : ¬ (0 ≤ x ∧ x < s.width ∧ 0 ≤ y ∧ y < s.height))
    (hout2 : ¬ (0 ≤ u ∧ u < st.width ∧ 0 ≤ v ∧ v < st.height)) :
    mwOpen s x y = .reject "out of bounds" ∧
    mwFlag s x y = .reject "out of bounds" ∧
    GameSession.openCmd s x y = .reject "out of bounds" ∧
    GameSession.flagCmd s x y = .reject "out of bounds" ∧
    MState.openCmd st u v = .reject "out of bounds" ∧
    MState.flagCmd st u v = .reject "out of bounds" ∧
    (∀ tc : TransportCall, mwOpen s x y ≠ .call tc ∧ mwFlag s x y ≠ .call tc ∧
      MState.openCmd st u v ≠ .call tc ∧ MState.flagCmd st u v ≠ .call tc) ∧
    (∀ t, applyResult t s (mwOpen s x y) = some s) ∧
    (∀ t, applyResult t s (mwFlag s x y) = some s) ∧
    (∀ t, applyResultM t st (MState.openCmd st u v) = some st) ∧
    (∀ t, applyResultM t st (MState.flagCmd st u v) = some st) := by
  have hdisj : ¬ (0 ≤ x ∧ x < s.width) ∨ ¬ (0 ≤ y ∧ y < s.height) := by tauto
  have hv : s.validate_move x y = false := by
    unfold GameSession.validate_move
    exact decide_eq_false hout
  have hv2 : st.validate_move u v = false := by
    unfold MState.validate_move
    exact decide_eq_false hout2
  have h1 : mwOpen s x y = .reject "out of bounds" := by
    unfold mwOpen
    rw [if_pos hdisj]
  have h2 : mwFlag s x y = .reject "out of bounds" := by
    unfold mwFlag
    rw [if_pos hdisj]
  have h3 : GameSession.openCmd s x y = .reject "out of bounds" := by
    simp [GameSession.openCmd, hv]
  have h4 : GameSession.flagCmd s x y = .reject "out of bounds" := by
    simp [GameSession.flagCmd, hv]
  have h5 : MState.openCmd st u v = .reject "out of bounds" := by
    simp [MState.openCmd, hv2]
  have h6 : MState.flagCmd st u v = .reject "out of bounds" := by
    simp [MState.flagCmd, hv2]
  refine ⟨h1, h2, h3, h4, h5, h6, ?_, ?_, ?_, ?_, ?_⟩
  · intro tc
    rw [h1, h2, h5, h6]
    exact ⟨by simp, by simp, by simp, by simp⟩
  · intro t
    rw [h1]
    rfl
  · intro t
    rw [h2]
    rfl
  · intro t
    rw [h5]
    rfl
  · intro t
    rw [h6]
    rfl

/-- C3 witness: out-of-bounds dispatches on the 1x1 session reject and
keep the session unchanged. -/
theorem c3_witness :
    mwOpen sessC3 5 0 = .reject "out of bounds" ∧
    MState.flagCmd stC3 0 (-1) = .reject "out of bounds" ∧
    applyResult (fun _ => sessC3) sessC3 (mwOpen sessC3 5 0) = some sessC3 := by
  have h := c3_out_of_bounds_rejected_locally sessC3 stC3 5 0 0 (-1) (by decide) (by decide)
  exact ⟨h.1, h.2.2.2.2.2.1, h.2.2.2.2.2.2.2.1 _⟩

/-- Concrete active session whose only cell is flagged (-1). -/
def sessC4 : GameSession :=
  { session_id := "s", grid := [-1], width := 1, height := 1, mine_count := 1,
    unique := true, dead := false, won := false, started_at := 0, ended_at := none }

/-- Concrete src/main.py client state whose only cell is flagged (-1). -/
def stC4 : MState :=
  { width := 1, height := 1, mine_count := 1, unique := true, session_id := some "s",
    grid := [-1], dead := false, won := false, started_at := some 0, ended_at := none }

/-- C4: chording a cell whose code is not in 0-8 is rejected locally with
zero transport calls, and the chord transport operation is invoked only
when the target cell's code is in 0-8 (class `Minesweeper.chord` of
src/minesweeper/main.py and `Minesweeper.chord` of src/main.py). -/
theorem c4_chord_requires_numbered_cell (s : GameSession) (st : MState) (x y c d : Int)
    (hxs : 0 ≤ x ∧ x < s.width) (hys : 0 ≤ y ∧ y < s.height)
    (hcs : s.grid[(y * s.width + x).toNat]? = some c)
    (hvt : st.validate_move x y = true) (hg : st.grid ≠ [])
    (hct : st.grid[(y * st.width + x).toNat]? = some d) :
    (¬ (0 ≤ c ∧ c ≤ 8) → GameSession.chordCmd s x y = .reject "cannot chord closed square" ∧
      ∀ tc : TransportCall, GameSession.chordCmd s x y ≠ .call tc) ∧
    (¬ (0 ≤ d ∧ d ≤ 8) → MState.chordCmd st x y = .reject "cannot chord closed square" ∧
      ∀ tc : TransportCall, MState.chordCmd st x y ≠ .call tc) ∧
    (GameSession.chordCmd s x y = .call (.tcChord x y) → 0 ≤ c ∧ c ≤ 8) ∧
    (MState.chordCmd st x y = .call (.tcChord x y) → 0 ≤ d ∧ d ≤ 8) := by
  have hvs : s.validate_move x y = true := by
    unfold GameSession.validate_move
    exact decide_eq_true ⟨hxs.1, hxs.2, hys.1, hys.2⟩
  have hgs : GameSession.chordCmd s x y =
      if ¬ (0 ≤ c ∧ c ≤ 8) then .reject "cannot chord closed square"
      else .call (.tcChord x y) := by
    simp [GameSession.chordCmd, hvs, hcs]
  have hms : MState.chordCmd st x y =
      if ¬ (0 ≤ d ∧ d ≤ 8) then .reject "cannot chord closed square"
      else .call (.tcChord x y) := by
    simp [MState.chordCmd, hvt, hg, hct]
  refine ⟨?_, ?_, ?_, ?_⟩
  · intro hc
    rw [hgs, if_pos hc]
    exact ⟨rfl, fun tc => by simp⟩
  · intro hd
    rw [hms, if_pos hd]
    exact ⟨rfl, fun tc => by simp⟩
  · intro hcall
    by_contra hc
    rw [hgs, if_pos hc] at hcall
    cases hcall
  · intro hcall
    by_contra hd
    rw [hms, if_pos hd] at hcall
    cases hcall

/-- C4 witness: chording the flagged cell is rejected locally in both
class dispatchers. -/
theorem c4_witness :
    GameSession.chordCmd sessC4 0 0 = .reject "cannot chord closed square" ∧
    MState.chordCmd stC4 0 0 = .reject "cannot chord closed square" := by
  have h := c4_chord_requires_numbered_cell sessC4 stC4 0 0 (-1) (-1) (by decide) (by decide)
    (by decide) (by decide) (by decide) (by decide)
  exact ⟨(h.1 (by decide)).1, (h.2.1 (by decide)).1⟩

/-- C5 pre-update client state: a 2x2 board, no session yet. -/
def stC5 : MState :=
  { width := 2, height := 2, mine_count := 1, unique := true, session_id := none,
    grid := [], dead := false, won := false, started_at := none, ended_at := none }

/-- C5 server response carrying a grid of length 3 for the 2x2 board. -/
def dC5 : UpdateData :=
  { session_id := "s", grid := [0, 1, 2], dead := false, won := false,
    started_at := 0, ended_at := none }

/-- C5 counterexample: a response grid of length 3 for a 2x2 session is
accepted verbatim by `Minesweeper.update` and rendered by `render_grid`
as two rows (the second one short) - there is no fatal protocol error on
this path, the snapshot is both accepted and rendered. -/
theorem c5_counterexample :
    (MState.update stC5 dC5).grid = [0, 1, 2] ∧
    ((MState.update stC5 dC5).grid.length : Int) ≠ stC5.width * stC5.height ∧
    batched [0, 1, 2] 2 = [[0, 1], [2]] ∧
    (dataRows [0, 1, 2] 2).length = 2 := by
  refine ⟨rfl, by decide, by decide, ?_⟩
  unfold dataRows
  rw [List.length_map, List.enum_length]
  decide

/-- C5 (amended): the client never validates the grid length: `update`
stores any server grid unconditionally (keeping `width`/`height`), and
the renderer partitions any grid into ceil(len/width) rows, the last row
short when `len % width ≠ 0`; a mismatched snapshot is accepted and
rendered, never treated as fatal. -/
theorem c5_no_grid_length_validation (st : MState) (d : UpdateData) (grid : List Int)
    (w : Nat) (hw : 0 < w) :
    (MState.update st d).grid = d.grid ∧
    (MState.update st d).width = st.width ∧
    (MState.update st d).height = st.height ∧
    (batched grid w).length = (grid.length + w - 1) / w ∧
    (dataRows grid w).length = (grid.length + w - 1) / w := by
  refine ⟨rfl, rfl, rfl, batched_length_ceil hw, ?_⟩
  unfold dataRows
  rw [List.length_map, List.enum_length]
  exact batched_length_ceil hw

/-- C5 witness: the amended statement at the mismatched 2x2 response. -/
theorem c5_witness :
    (MState.update stC5 dC5).grid = dC5.grid ∧
    (batched dC5.grid 2).length = (dC5.grid.length + 2 - 1) / 2 := by
  have h := c5_no_grid_length_validation stC5 dC5 dC5.grid 2 (by decide)
  exact ⟨h.1, h.2.2.2.1⟩

/-- C6 counterexample: at width 1 the column width the renderer computes
and uses for alignment is ceil(log10(1)) = 0; the claimed 1-character
minimum is not applied. -/
theorem c6_counterexample :
    renderColwidth 1 = 0 ∧ renderColwidth 1 ≠ max (ceilLog10 1) 1 := by
  decide

/-- C6 (amended): for every width > 0 and grid of length width*height,
the renderer produces exactly `height` data rows and a column ruler over
exactly `width` distinct indices, and the per-column index width used
for alignment is exactly ceil(log10(width)) - the least `k` with
`width ≤ 10^k` - with no 1-character minimum (it is 0 at width 1). -/
theorem c6_render_shape (grid : List Int) (w h : Nat) (hw : 0 < w)
    (hlen : grid.length = w * h) :
    (dataRows grid w).length = h ∧
    (rulerIndices w).length = w ∧
    (rulerIndices w).Nodup ∧
    w ≤ 10 ^ renderColwidth w ∧
    (∀ k, w ≤ 10 ^ k → renderColwidth w ≤ k) := by
  refine ⟨?_, List.length_range w, List.nodup_range w, ceilLog10_le_pow hw,
    fun k hk => ceilLog10_least hk⟩
  unfold dataRows
  rw [List.length_map, List.enum_length]
  exact batched_length_exact hw hlen

/-- C6 witness: a 1x2 all-closed grid renders as two data rows and a
one-entry duplicate-free ruler. -/
theorem c6_witness :
    (dataRows [-2, -2] 1).length = 2 ∧ (rulerIndices 1).length = 1 ∧
    (rulerIndices 1).Nodup := by
  have h := c6_render_shape [-2, -2] 1 2 (by decide) (by decide)
  exact ⟨h.1, h.2.1, h.2.2.1⟩

/-- C7: the cell-to-glyph mapping is total and functional in both
tables: every listed code maps to exactly one glyph (the key sets are
duplicate-free), every code outside the table maps to the fallback "%"
on every lookup, and the fallback is one and the same glyph for all
unknown codes - there is no exception path, the lookup is a total
function over the integers. -/
theorem c7_cell_glyphs_total :
    (CELL_TABLE.map Prod.fst).Nodup ∧ (CELL_TABLE_V0.map Prod.fst).Nodup ∧
    (∀ c g1 g2, (c, g1) ∈ CELL_TABLE → (c, g2) ∈ CELL_TABLE → g1 = g2) ∧
    (∀ c g1 g2, (c, g1) ∈ CELL_TABLE_V0 → (c, g2) ∈ CELL_TABLE_V0 → g1 = g2) ∧
    (∀ c : Int, c ∉ CELL_TABLE.map Prod.fst → cellToCh c = "%") ∧
    (∀ c : Int, c ∉ CELL_TABLE_V0.map Prod.fst → cellToChV0 c = "%") ∧
    (∀ c e : Int, c ∉ CELL_TABLE.map Prod.fst → e ∉ CELL_TABLE.map Prod.fst →
      cellToCh c = cellToCh e) := by
  have hnd : (CELL_TABLE.map Prod.fst).Nodup := by decide
  have hnd0 : (CELL_TABLE_V0.map Prod.fst).Nodup := by decide
  have hfb : ∀ c : Int, c ∉ CELL_TABLE.map Prod.fst → cellToCh c = "%" := by
    intro c hcm
    unfold cellToCh
    rw [lookup_eq_none_of_not_key hcm]
    rfl
  have hfb0 : ∀ c : Int, c ∉ CELL_TABLE_V0.map Prod.fst → cellToChV0 c = "%" := by
    intro c hcm
    unfold cellToChV0
    rw [lookup_eq_none_of_not_key hcm]
    rfl
  exact ⟨hnd, hnd0, fun c g1 g2 h1 h2 => assoc_functional hnd h1 h2,
    fun c g1 g2 h1 h2 => assoc_functional hnd0 h1 h2, hfb, hfb0,
    fun c e hc he => by rw [hfb c hc, hfb e he]⟩

/-- C7 witness: unknown codes 99 and 1000 fall back to "%", and so does
67 in the src/main.py table (where it is not listed). -/
theorem c7_witness :
    cellToCh 99 = "%" ∧ cellToChV0 67 = "%" ∧ cellToCh 99 = cellToCh 1000 :=
  ⟨c7_cell_glyphs_total.2.2.2.2.1 99 (by decide),
   c7_cell_glyphs_total.2.2.2.2.2.1 67 (by decide),
   c7_cell_glyphs_total.2.2.2.2.2.2 99 1000 (by decide) (by decide)⟩

/-- The claim's notion of a malformed seed: a colon-part count other than
3 or 4, or some part that is not a string of digits. -/
def claimMalformedSeed (seed : String) : Prop :=
  ¬ ((pySplitColon seed).length = 3 ∨ (pySplitColon seed).length = 4) ∨
    ∃ p ∈ pySplitColon seed, pyIsDigitStr p = false

/-- C8 counterexample: "5:5:-3" is malformed in the claim's sense (its
part "-3" is not a digit string), yet `from_seed` accepts it - the digit
guard filters non-digit parts out before checking them - so setup
succeeds, the interaction loop starts, and no non-zero exit happens. -/
theorem c8_counterexample :
    claimMalformedSeed "5:5:-3" ∧
    from_seed "5:5:-3" = .ok ⟨5, 5, -3, true⟩ ∧
    mainExitOnSetup "5:5:-3" = none := by
  refine ⟨Or.inr ⟨"-3", by decide, by decide⟩, rfl, rfl⟩

/-- C8 (amended): setup fails before the loop, with exit code 1, exactly
on the seeds whose colon-part count is not 3 or 4 or in which some part
is not parseable by `int(...)`; a part that parses as an integer without
being a digit string (such as "-3") is accepted, because the guard
`all(s for s in parts if s.isdigit())` never fires as written. -/
theorem c8_bad_seed_fails_setup (seed : String)
    (hbad : ¬ ((pySplitColon seed).length = 3 ∨ (pySplitColon seed).length = 4) ∨
      ∃ p ∈ pySplitColon seed, pyInt p = none) :
    (∃ e, from_seed seed = .error e) ∧ mainExitOnSetup seed = some 1 := by
  have herr : ∃ e, from_seed seed = .error e := by
    simp only [from_seed]
    by_cases hlen : (pySplitColon seed).length = 3 ∨ (pySplitColon seed).length = 4
    · rcases hbad with h | hex
      · exact absurd hlen h
      · rw [if_neg (not_not_intro hlen),
          if_neg (not_not_intro (seed_digit_guard_true (pySplitColon seed))),
          pyMapInt_eq_none.mpr hex]
        exact ⟨_, rfl⟩
    · rw [if_pos hlen]
      exact ⟨_, rfl⟩
  obtain ⟨e, he⟩ := herr
  refine ⟨⟨e, he⟩, ?_⟩
  unfold mainExitOnSetup
  rw [he]

/-- C8 witness: the two-part seed "1:2" fails setup with exit code 1. -/
theorem c8_witness : mainExitOnSetup "1:2" = some 1 :=
  (c8_bad_seed_fails_setup "1:2" (Or.inl (by decide))).2

/-- Concrete pre-game src/main.py state (no grid yet). -/
def stC9 : MState :=
  { width := 2, height := 2, mine_count := 3, unique := true, session_id := none,
    grid := [], dead := false, won := false, started_at := none, ended_at := none }

/-- Concrete session with two flagged cells. -/
def sessC9 : GameSession :=
  { session_id := "s", grid := [-1, 0, -1, -2], width := 2, height := 2, mine_count := 3,
    unique := true, dead := false, won := false, started_at := 0, ended_at := none }

/-- C9: the remaining-mine count shown to the user is derived on every
read, never stored: in both clients it equals mine_count minus the
number of grid cells carrying the flag code -1, and before any grid
exists (src/main.py's falsy empty grid) it equals mine_count. -/
theorem c9_mines_remaining_derived (st : MState) (s : GameSession) :
    MState.mines_remaining st = specMinesRemaining st.mine_count st.grid ∧
    (st.grid = [] → MState.mines_remaining st = st.mine_count) ∧
    GameSession.mines_remaining s = specMinesRemaining s.mine_count s.grid := by
  refine ⟨?_, ?_, rfl⟩
  · unfold MState.mines_remaining specMinesRemaining
    by_cases h : st.grid = []
    · rw [if_pos h, h]
      simp
    · rw [if_neg h]
  · intro h
    unfold MState.mines_remaining
    rw [if_pos h]

/-- C9 witness: the derived formula at concrete states. -/
theorem c9_witness :
    MState.mines_remaining stC9 = stC9.mine_count ∧
    GameSession.mines_remaining sessC9 = specMinesRemaining sessC9.mine_count sessC9.grid := by
  have h := c9_mines_remaining_derived stC9 sessC9
  exact ⟨h.2.1 rfl, h.2.2⟩

/-- Concrete session whose only cell is flagged. -/
def sessC10 : GameSession :=
  { session_id := "s", grid := [-1], width := 1, height := 1, mine_count := 1,
    unique := true, dead := false, won := false, started_at := 0, ended_at := none }

/-- Concrete session whose only cell is unopened (-2). -/
def sessC10b : GameSession :=
  { session_id := "s", grid := [-2], width := 1, height := 1, mine_count := 1,
    unique := true, dead := false, won := false, started_at := 0, ended_at := none }

/-- Concrete src/main.py client state whose only cell is flagged. -/
def stC10 : MState :=
  { width := 1, height := 1, mine_count := 1, unique := true, session_id := some "s",
    grid := [-1], dead := false, won := false, started_at := some 0, ended_at := none }

/-- C10 counterexample: opening the flagged cell (0,0) through the
module-level `open` handler wired into `DISPATCH` of
src/minesweeper/main.py invokes the chord transport operation - a
network call - rather than rejecting locally as an illegal chord
target. -/
theorem c10_counterexample :
    sessC10.grid = [-1] ∧ mwOpen sessC10 0 0 = .call (.tcChord 0 0) := by
  decide

/-- C10 (amended): in-game `open` invokes the open transport iff the
cell's code is -2, and any other code is redirected to the chord path;
in src/main.py that path rejects flagged (-1) and questionable (-3)
cells locally ("cannot chord closed square", no transport call), while
the module-level `open` of src/minesweeper/main.py invokes the chord
transport for them, leaving the rejection to the server. -/
theorem c10_open_transport_iff_unopened (s : GameSession) (st : MState) (x y c d : Int)
    (hxs : 0 ≤ x ∧ x < s.width) (hys : 0 ≤ y ∧ y < s.height)
    (hcs : s.grid[(y * s.width + x).toNat]? = some c)
    (hvt : st.validate_move x y = true) (hg : st.grid ≠ [])
    (hct : st.grid[(y * st.width + x).toNat]? = some d) :
    (mwOpen s x y = .call (.tcOpen x y) ↔ c = -2) ∧
    (c ≠ -2 → mwOpen s x y = .call (.tcChord x y)) ∧
    (MState.openCmd st x y = .call (.tcOpen x y) ↔ d = -2) ∧
    (d ≠ -2 → ¬ (0 ≤ d ∧ d ≤ 8) →
      MState.openCmd st x y = .reject "cannot chord closed square") := by
  have hnb : ¬ (¬ (0 ≤ x ∧ x < s.width) ∨ ¬ (0 ≤ y ∧ y < s.height)) := by
    push_neg
    exact ⟨hxs, hys⟩
  have hmw : mwOpen s x y =
      if c == -2 then .call (.tcOpen x y) else .call (.tcChord x y) := by
    simp only [mwOpen, List.get?_eq_getElem?, hcs]
    rw [if_neg hnb]
  have hms : MState.openCmd st x y =
      if d ≠ -2 then st.chordCmd x y else .call (.tcOpen x y) := by
    simp only [MState.openCmd, List.get?_eq_getElem?, hct]
    rw [if_neg (by simp [hvt]), if_neg hg]
  have hchord : MState.chordCmd st x y =
      if ¬ (0 ≤ d ∧ d ≤ 8) then .reject "cannot chord closed square"
      else .call (.tcChord x y) := by
    simp [MState.chordCmd, hvt, hg, hct]
  refine ⟨?_, ?_, ?_, ?_⟩
  · rw [hmw]
    by_cases hc2 : c = -2
    · simp [hc2]
    · simp [beq_eq_false_iff_ne.mpr hc2, hc2]
  · intro hc
    rw [hmw]
    simp [beq_eq_false_iff_ne.mpr hc]
  · rw [hms]
    by_cases hd2 : d = -2
    · simp [hd2]
    · rw [if_pos hd2, hchord]
      by_cases h08 : 0 ≤ d ∧ d ≤ 8
      · rw [if_neg (not_not_intro h08)]
        simp [hd2]
      · rw [if_pos h08]
        simp [hd2]
  · intro hdne hd08
    rw [hms, if_pos hdne, hchord, if_pos hd08]

/-- C10 witness: the flagged cell is rejected locally in src/main.py,
and the open transport fires exactly on the -2 cell. -/
theorem c10_witness :
    MState.openCmd stC10 0 0 = .reject "cannot chord closed square" ∧
    mwOpen sessC10b 0 0 = .call (.tcOpen 0 0) := by
  have h1 := c10_open_transport_iff_unopened sessC10 stC10 0 0 (-1) (-1) (by decide)
    (by decide) (by decide) (by decide) (by decide) (by decide)
  have h2 := c10_open_transport_iff_unopened sessC10b stC10 0 0 (-2) (-1) (by decide)
    (by decide) (by decide) (by decide) (by decide) (by decide)
  exact ⟨h1.2.2.2 (by decide) (by decide), h2.1.mpr rfl⟩
